import Mathlib

/-
Shallow embedding of the cpu-stats library (src/src/lib.rs).

Modelling conventions:
* Rust `std::time::Duration` is a pair of a `u64` seconds count and a
  nanoseconds count below 10^9; both are modelled as `Nat`.
* Machine integers (`u64`, `u32`, `usize`) are modelled as `Nat`; the one
  place the source narrows a value (`clock_ticks() as u32`) is modelled
  explicitly as `% 2^32`, and `ret as usize` on the `c_long` returned by
  `sysconf` is modelled as `% 2^64` on the integer value.
* A Rust function that can panic is modelled with `Option` (`none` = panic)
  or with the `Outcome` type below (`.panicked` = panic); `io::Result` is
  modelled with `.err e` where `e` is the OS error code reported by
  `io::Error::last_os_error()` at the failing call.
* OS calls are inputs: each embedded function takes the outcome of every OS
  call it performs as an explicit argument (`Except Nat`, error = the
  source's `ret == -1` branch together with the current OS error code).
-/

namespace CpuStatsModel

/-- Rust `std::time::Duration`: seconds and sub-second nanoseconds (`nanos < 10^9`
for every value built by the library's code paths). -/
structure Duration where
  secs : Nat
  nanos : Nat
deriving DecidableEq

/-- Model of `Duration::new(secs, nanos)`: carries surplus nanoseconds into seconds. -/
def Duration.new (secs nanos : Nat) : Duration :=
  ⟨secs + nanos / 1000000000, nanos % 1000000000⟩

/-- Model of `Duration::from_secs`. -/
def Duration.from_secs (s : Nat) : Duration := ⟨s, 0⟩

/-- Model of `Duration::checked_div(rhs: u32)`, which `Duration / u32` delegates to
(panicking on `none`).  Mirrors the std implementation: divide the seconds,
divide the nanoseconds, and fold the remainders into extra nanoseconds. -/
def Duration.checked_div (d : Duration) (rhs : Nat) : Option Duration :=
  if rhs ≠ 0 then
    let secs := d.secs / rhs
    let extra_secs := d.secs % rhs
    let nanos := d.nanos / rhs
    let extra_nanos := d.nanos % rhs
    some (Duration.new secs (nanos + (extra_secs * 1000000000 + extra_nanos) / rhs))
  else
    none

/-- The `CpuStats` struct of the library. -/
structure CpuStats where
  user : Duration
  system : Duration
deriving DecidableEq

/-- Model of `CpuStats::default()`: both durations zero. -/
def CpuStats.default : CpuStats := ⟨⟨0, 0⟩, ⟨0, 0⟩⟩

/-- Result of running a Rust function that may return `Ok`, return an
`io::Error` carrying an OS error code, or panic. -/
inductive Outcome (α : Type) where
  | ok (a : α)
  | err (e : Nat)
  | panicked
deriving DecidableEq

/-- Model of `char::is_ascii_whitespace`: space, tab, newline, form feed, carriage
return. -/
def isAsciiWhitespace (c : Char) : Bool :=
  c = ' ' || c = '\t' || c = '\n' || c = '\x0c' || c = '\r'

/-- Accumulating splitter behind `split_ascii_whitespace`: `acc` holds the
current field reversed; empty fields between separators are skipped. -/
def splitAsciiWhitespaceAux : List Char → List Char → List String
  | [], acc => if acc = [] then [] else [⟨acc.reverse⟩]
  | c :: rest, acc =>
    if isAsciiWhitespace c then
      if acc = [] then splitAsciiWhitespaceAux rest []
      else ⟨acc.reverse⟩ :: splitAsciiWhitespaceAux rest []
    else
      splitAsciiWhitespaceAux rest (c :: acc)

/-- Model of `str::split_ascii_whitespace`. -/
def splitAsciiWhitespace (s : String) : List String :=
  splitAsciiWhitespaceAux s.data []

/-- Model of `str::parse::<u64>`: optional leading `+`, one or more ASCII digits, and
the value must fit in 64 bits; `none` models a `ParseIntError`. -/
def parseU64 (s : String) : Option Nat :=
  let cs := match s.data with
    | '+' :: rest => rest
    | cs => cs
  if cs = [] then none
  else if cs.all (fun c => c.isDigit) then
    let v := cs.foldl (fun acc c => acc * 10 + (c.toNat - 48)) 0
    if v < 18446744073709551616 then some v else none
  else none

/-- The body of `parse_to_duration` (Linux module): `v.parse().unwrap()`
(panic on parse failure), then `Duration::from_secs(v) / clock_ticks() as u32`
(panic on a zero divisor).  `ticks` is the value of `clock_ticks()`; the
`as u32` narrowing is the `% 2^32`. -/
def parse_to_duration (ticks : Nat) (v : String) : Option Duration :=
  match parseU64 v with
  | none => none
  | some n => (Duration.from_secs n).checked_div (ticks % 4294967296)

/-- The `for (i, v) in line.split_ascii_whitespace().enumerate()` loop of
`read_proc_stat_cpu`: index 0 and 2 are skipped, index 1 sets `user`,
index 3 sets `system`, any later index breaks out of the loop. -/
def cpuLoop (ticks : Nat) : List String → Nat → CpuStats → Option CpuStats
  | [], _, stats => some stats
  | v :: rest, i, stats =>
    match i with
    | 0 => cpuLoop ticks rest 1 stats
    | 1 =>
      match parse_to_duration ticks v with
      | none => none
      | some d => cpuLoop ticks rest 2 ⟨d, stats.system⟩
    | 2 => cpuLoop ticks rest 3 stats
    | 3 =>
      match parse_to_duration ticks v with
      | none => none
      | some d => cpuLoop ticks rest 4 ⟨stats.user, d⟩
    | _ => some stats

/-- Model of `linux::read_proc_stat_cpu` (exported as `cpu_stats` on Linux).
`file` is the outcome of opening `/proc/stat` and reading its first line:
`.error e` models an `io::Error` (code `e`) from `File::open` or
`read_line`, propagated by `?`; `.ok line` is the first line read. -/
def read_proc_stat_cpu (file : Except Nat String) (ticks : Nat) :
    Outcome CpuStats :=
  match file with
  | .error e => .err e
  | .ok line =>
    match cpuLoop ticks (splitAsciiWhitespace line) 0 CpuStats.default with
    | none => .panicked
    | some stats => .ok stats

/-- Model of `slice::chunks(4)`: chunks of four elements, the last possibly shorter. -/
def chunks4 : List Nat → List (List Nat)
  | [] => []
  | a :: b :: c :: d :: rest => [a, b, c, d] :: chunks4 rest
  | l => [l]

/-- Tuple extraction `(chunk[0], chunk[1], chunk[2], chunk[3])` with `none` modelling the
index-out-of-bounds panic on a chunk shorter than four. -/
def chunkToRecord (chunk : List Nat) : Option (Nat × Nat × Nat × Nat) :=
  match chunk with
  | a :: b :: c :: d :: _ => some (a, b, c, d)
  | _ => none

/-- The record-building loop of `get_host_processor_info` over the chunks,
propagating the indexing panic of any short chunk. -/
def extractRecordsLoop : List (List Nat) → Option (List (Nat × Nat × Nat × Nat))
  | [] => some []
  | chunk :: rest =>
    match chunkToRecord chunk with
    | none => none
    | some r =>
      match extractRecordsLoop rest with
      | none => none
      | some rs => some (r :: rs)

/-- The record-building loop of `get_host_processor_info`: chunk the raw
array by four and extract each chunk's four counters. -/
def extractRecords (l : List Nat) : Option (List (Nat × Nat × Nat × Nat)) :=
  extractRecordsLoop (chunks4 l)

/-- Outcomes of the three OS calls the macOS reader performs, in program
order.  `.error e` models the source's `ret == -1` branch with OS error
code `e` from `io::Error::last_os_error()`. -/
structure MacEnv where
  /-- Outcome of `libc::host_processor_info`: on success, the flat `integer_t` array
  `cpu_info[0 .. cpu_info_count)` (each element read `as usize`). -/
  hostProcessorInfo : Except Nat (List Nat)
  /-- Outcome of `libc::vm_deallocate` of the returned buffer. -/
  vmDeallocate : Except Nat Unit
  /-- Outcome of `mach2::mach_port::mach_port_deallocate` of the host port. -/
  machPortDeallocate : Except Nat Unit

/-- Model of `macos::get_host_processor_info`: query, chunk the raw array into
four-counter records, then deallocate the buffer; either OS call failing
returns the OS error. -/
def get_host_processor_info (env : MacEnv) :
    Outcome (List (Nat × Nat × Nat × Nat)) :=
  match env.hostProcessorInfo with
  | .error e => .err e
  | .ok cpu_info =>
    match extractRecords cpu_info with
    | none => .panicked
    | some array =>
      match env.vmDeallocate with
      | .error e => .err e
      | .ok _ => .ok array

/-- Model of `macos::cpu_stats` (exported as `cpu_stats` on macOS): fetch the
per-core records, deallocate the host port, sum the `user` and `system`
counters over all cores with `usize` arithmetic
(`user_total += user; system_total += system` wraps modulo `2^64` on
overflow in release builds — reachable, since a negative `integer_t`
counter sign-extends under `as usize`; a debug build would panic at the
overflowing addition instead), and convert both totals with
`Duration::from_secs(total) / clock_ticks() as u32`. -/
def macos_cpu_stats (env : MacEnv) (ticks : Nat) : Outcome CpuStats :=
  match get_host_processor_info env with
  | .err e => .err e
  | .panicked => .panicked
  | .ok processor_info =>
    match env.machPortDeallocate with
    | .error e => .err e
    | .ok _ =>
      let totals := processor_info.foldl
        (fun (acc : Nat × Nat) r =>
          ((acc.1 + r.1) % 18446744073709551616,
           (acc.2 + r.2.1) % 18446744073709551616)) (0, 0)
      match (Duration.from_secs totals.1).checked_div (ticks % 4294967296) with
      | none => .panicked
      | some u =>
        match (Duration.from_secs totals.2).checked_div (ticks % 4294967296) with
        | none => .panicked
        | some s => .ok ⟨u, s⟩

/-- Flatten a list of per-core records back into the raw `integer_t` array
layout the OS hands over. -/
def flattenRecords : List (Nat × Nat × Nat × Nat) → List Nat
  | [] => []
  | r :: rest => r.1 :: r.2.1 :: r.2.2.1 :: r.2.2.2 :: flattenRecords rest

/-- Model of `sysconf_clock_ticks`: `libc::sysconf(_SC_CLK_TCK)` returns the
`c_long` `ret`; `-1` is the error branch (OS error code `osErr`), any other
value is returned `as usize` (`% 2^64` on the integer value). -/
def sysconf_clock_ticks (ret : Int) (osErr : Nat) : Except Nat Nat :=
  if ret = -1 then .error osErr
  else .ok (ret % 18446744073709551616).toNat

/-- State of the `CLOCK_TICKS` static together with its `Once` guard. -/
inductive ClockState where
  /-- the `Once` has not yet run. -/
  | uninit
  /-- the `call_once` closure panicked, poisoning the `Once`. -/
  | poisoned
  /-- the `call_once` completed and stored `v` in `CLOCK_TICKS`. -/
  | cached (v : Nat)
deriving DecidableEq

/-- One call of `clock_ticks()`.  `os` is the raw result the OS would give
if `sysconf` were called now.  Returns the call's outcome, the state after
the call, and whether the OS query was actually executed. -/
def clock_ticks (os : Int × Nat) (st : ClockState) :
    Outcome Nat × ClockState × Bool :=
  match st with
  | .cached v => (.ok v, .cached v, false)
  | .poisoned => (.panicked, .poisoned, false)
  | .uninit =>
    match sysconf_clock_ticks os.1 os.2 with
    | .ok v => (.ok v, .cached v, true)
    | .error _ => (.panicked, .poisoned, true)

/-- Run a sequence of `clock_ticks()` calls; the `n`-th pair is the raw OS
answer available to the `n`-th call.  Returns every call's outcome, the
final state, and how many times the OS query was executed. -/
def run_clock_ticks : List (Int × Nat) → ClockState →
    List (Outcome Nat) × ClockState × Nat
  | [], st => ([], st, 0)
  | os :: rest, st =>
    match clock_ticks os st with
    | (r, st1, q) =>
      match run_clock_ticks rest st1 with
      | (rs, st2, qs) => (r :: rs, st2, (if q then 1 else 0) + qs)

/-- Modelled from the spec: the conversion formula `seconds(R) / T` —
`Duration::from_secs(R)` divided by `T` under integer/duration division
semantics, spelled out directly: `R / T` whole seconds and the remainder
scaled to nanoseconds. -/
def spec_ticks_to_duration (R T : Nat) : Duration :=
  ⟨R / T, R % T * 1000000000 / T⟩

/-- Modelled from the spec: the "common `R / T` seconds formula" that the
spec insists the conversion is *not*. -/
def common_ticks_to_duration (R T : Nat) : Duration :=
  Duration.from_secs (R / T)

/-- Dividing a whole-second duration by a nonzero `u32` value yields exactly
the spec's `seconds(R) / T` duration. -/
theorem checked_div_from_secs (R T : Nat) (hT : 0 < T) :
    (Duration.from_secs R).checked_div T = some (spec_ticks_to_duration R T) := by
  have hT0 : T ≠ 0 := Nat.pos_iff_ne_zero.mp hT
  have hq : R % T * 1000000000 / T < 1000000000 := by
    have h1 : R % T < T := Nat.mod_lt _ hT
    have h2 : R % T * 1000000000 < T * 1000000000 :=
      mul_lt_mul_of_pos_right h1 (by norm_num)
    exact Nat.div_lt_of_lt_mul h2
  simp [Duration.checked_div, Duration.from_secs, Duration.new,
    spec_ticks_to_duration, hT0, Nat.div_eq_of_lt hq, Nat.mod_eq_of_lt hq]

/-- Once the loop index reaches 4, the loop breaks, keeping the accumulated
stats. -/
theorem cpuLoop_break (ticks : Nat) (l : List String) (s : CpuStats) :
    cpuLoop ticks l 4 s = some s := by
  cases l <;> rfl

/-- Chunking the flat array of a record list recovers exactly the records. -/
theorem extractRecords_flatten (recs : List (Nat × Nat × Nat × Nat)) :
    extractRecords (flattenRecords recs) = some recs := by
  induction recs with
  | nil => rfl
  | cons r rest ih =>
    obtain ⟨a, b, c, d⟩ := r
    simp only [extractRecords] at ih
    simp [extractRecords, flattenRecords, chunks4, extractRecordsLoop,
      chunkToRecord, ih]

/-- The summing loop of `macos::cpu_stats` computes the per-field sums
reduced modulo `2^64` (`usize` wrapping), starting from any in-range
accumulator. -/
theorem foldl_totals (recs : List (Nat × Nat × Nat × Nat)) (p : Nat × Nat)
    (h1 : p.1 < 18446744073709551616) (h2 : p.2 < 18446744073709551616) :
    recs.foldl (fun (acc : Nat × Nat) r =>
        ((acc.1 + r.1) % 18446744073709551616,
         (acc.2 + r.2.1) % 18446744073709551616)) p =
      ((p.1 + (recs.map (fun r => r.1)).sum) % 18446744073709551616,
       (p.2 + (recs.map (fun r => r.2.1)).sum) % 18446744073709551616) := by
  induction recs generalizing p with
  | nil =>
    simp [Nat.mod_eq_of_lt h1, Nat.mod_eq_of_lt h2]
  | cons r rest ih =>
    simp only [List.foldl_cons, List.map_cons, List.sum_cons]
    rw [ih ((p.1 + r.1) % 18446744073709551616,
            (p.2 + r.2.1) % 18446744073709551616)
          (Nat.mod_lt _ (by norm_num)) (Nat.mod_lt _ (by norm_num))]
    simp only [Nat.mod_add_mod, Prod.mk.injEq]
    constructor <;> (congr 1; omega)

/-- A first `clock_ticks()` call on an uninitialized cache with a working
`sysconf` caches the value; every later call returns it without querying. -/
theorem run_clock_ticks_cached (calls : List (Int × Nat)) (v : Nat) :
    run_clock_ticks calls (.cached v) =
      (List.replicate calls.length (.ok v), .cached v, 0) := by
  induction calls with
  | nil => rfl
  | cons os rest ih =>
    simp [run_clock_ticks, clock_ticks, ih, List.replicate]

/-- Any sequence of `clock_ticks()` calls whose first call sees a successful
`sysconf` answer `r` returns that value every time and queries the OS once. -/
theorem run_clock_ticks_ok (r : Int) (e : Nat) (rest : List (Int × Nat))
    (hr : r ≠ -1) :
    run_clock_ticks ((r, e) :: rest) ClockState.uninit =
      (List.replicate (rest.length + 1)
        (Outcome.ok (r % 18446744073709551616).toNat),
       ClockState.cached (r % 18446744073709551616).toNat, 1) := by
  simp [run_clock_ticks, clock_ticks, sysconf_clock_ticks, hr,
    run_clock_ticks_cached, List.replicate]

/-- Claim C1: for every raw tick count `R` and tick frequency `T` obtained
from `clock_ticks()`, the duration produced by the conversion in both
platform readers equals `Duration::from_secs(R)` divided by `T` under
integer/duration division semantics — `seconds(R) / T` — and not the common
`R / T` seconds formula. -/
theorem claim_C1 (R T : Nat) (v : String)
    (hv : parseU64 v = some R) (hT0 : 0 < T) (hT32 : T < 4294967296) :
    parse_to_duration T v = some (spec_ticks_to_duration R T) ∧
    (Duration.from_secs R).checked_div (T % 4294967296) =
      some (spec_ticks_to_duration R T) ∧
    spec_ticks_to_duration 1 2 ≠ common_ticks_to_duration 1 2 := by
  have hmod : T % 4294967296 = T := Nat.mod_eq_of_lt hT32
  refine ⟨?_, ?_, by decide⟩
  · simp [parse_to_duration, hv, hmod, checked_div_from_secs _ _ hT0]
  · simp [hmod, checked_div_from_secs _ _ hT0]

/-- Witness for C1 at `R = 1000`, `T = 100`. -/
theorem claim_C1_witness :
    parse_to_duration 100 "1000" = some (spec_ticks_to_duration 1000 100) ∧
    (Duration.from_secs 1000).checked_div (100 % 4294967296) =
      some (spec_ticks_to_duration 1000 100) ∧
    spec_ticks_to_duration 1 2 ≠ common_ticks_to_duration 1 2 :=
  claim_C1 1000 100 "1000" (by decide) (by decide) (by decide)

/-- Claim C2: on a first line splitting into a label and numeric fields, the
file-based `cpu_stats()` takes `user` from the 2nd whitespace-separated
field and `system` from the 4th; fields 1, 3 and 5+ do not affect the
result (the right-hand side mentions only the 2nd and 4th fields). -/
theorem claim_C2 (line label f1 f2 f3 : String) (rest : List String)
    (T a b : Nat)
    (hsplit : splitAsciiWhitespace line = label :: f1 :: f2 :: f3 :: rest)
    (ha : parseU64 f1 = some a) (hb : parseU64 f3 = some b)
    (hT0 : 0 < T) (hT32 : T < 4294967296) :
    read_proc_stat_cpu (.ok line) T =
      .ok ⟨spec_ticks_to_duration a T, spec_ticks_to_duration b T⟩ := by
  have hmod : T % 4294967296 = T := Nat.mod_eq_of_lt hT32
  simp [read_proc_stat_cpu, hsplit, cpuLoop, parse_to_duration, ha, hb, hmod,
    checked_div_from_secs _ _ hT0, cpuLoop_break, CpuStats.default]

/-- Witness for C2 at the spec's example line `cpu 1000 200 500 300` with
`T = 100`. -/
theorem claim_C2_witness :
    read_proc_stat_cpu (.ok "cpu 1000 200 500 300") 100 =
      .ok ⟨spec_ticks_to_duration 1000 100, spec_ticks_to_duration 500 100⟩ :=
  claim_C2 "cpu 1000 200 500 300" "cpu" "1000" "200" "500" ["300"] 100
    1000 500 (by decide) (by decide) (by decide) (by decide) (by decide)

/-- Counterexample to claim C3 as stated: two cores whose `user` counters
are the `as usize` sign-extension of `-1_i32`, i.e. `2^64 - 1`, overflow the
`usize` accumulator, so the total passed to the conversion is the wrapped
sum `2^64 - 2` (with `T = 1`, a `2^64 - 2` second duration) and not the
mathematical sum `2^65 - 2` the claim requires. -/
theorem claim_C3_counterexample :
    macos_cpu_stats
        ⟨.ok (flattenRecords
          [(18446744073709551615, 0, 0, 0), (18446744073709551615, 0, 0, 0)]),
         .ok (), .ok ()⟩ 1 =
      .ok ⟨⟨18446744073709551614, 0⟩, ⟨0, 0⟩⟩ ∧
    (⟨18446744073709551614, 0⟩ : Duration) ≠ ⟨36893488147419103230, 0⟩ := by
  decide

/-- Claim C3 (amended): the totals passed to the duration conversion are the
sum of the `user` counters and the sum of the `system` counters across all
cores reduced modulo `2^64` (`usize` wrapping arithmetic — equal to the
plain sums whenever they fit in `usize`), and the `idle` and `nice` counters
of every record have no effect on the returned `CpuStats`. -/
theorem claim_C3 (recs : List (Nat × Nat × Nat × Nat)) (T : Nat)
    (hT0 : 0 < T) (hT32 : T < 4294967296) :
    macos_cpu_stats ⟨.ok (flattenRecords recs), .ok (), .ok ()⟩ T =
      .ok ⟨spec_ticks_to_duration
             (((recs.map (fun r => r.1)).sum) % 18446744073709551616) T,
           spec_ticks_to_duration
             (((recs.map (fun r => r.2.1)).sum) % 18446744073709551616) T⟩ := by
  have hmod : T % 4294967296 = T := Nat.mod_eq_of_lt hT32
  have hf := foldl_totals recs (0, 0) (by norm_num) (by norm_num)
  simp only [Nat.zero_add] at hf
  have hf0 : recs.foldl (fun (acc : Nat × Nat) r =>
        ((acc.1 + r.1) % 18446744073709551616,
         (acc.2 + r.2.1) % 18446744073709551616)) 0 =
      ((recs.map (fun r => r.1)).sum % 18446744073709551616,
       (recs.map (fun r => r.2.1)).sum % 18446744073709551616) := hf
  simp [macos_cpu_stats, get_host_processor_info, extractRecords_flatten,
    hf, hf0, hmod, checked_div_from_secs _ _ hT0]

/-- Witness for C3 at the spec's example records
`[(100,50,10,5), (200,75,20,5)]` with `T = 100`: totals are `user = 300`,
`system = 125`. -/
theorem claim_C3_witness :
    macos_cpu_stats
        ⟨.ok (flattenRecords [(100, 50, 10, 5), (200, 75, 20, 5)]),
          .ok (), .ok ()⟩ 100 =
      .ok ⟨spec_ticks_to_duration 300 100, spec_ticks_to_duration 125 100⟩ :=
  claim_C3 [(100, 50, 10, 5), (200, 75, 20, 5)] 100 (by decide) (by decide)

/-- Claim C4: in the host-call reader, a failure of any of the three OS
calls — acquire processor info, deallocate the returned buffer, release the
host port — surfaces as an error carrying the OS error code, and a failing
later release step is reported even when all earlier steps succeeded. -/
theorem claim_C4 (recs : List (Nat × Nat × Nat × Nat)) (e T : Nat)
    (vmd mpd : Except Nat Unit) :
    macos_cpu_stats ⟨.error e, vmd, mpd⟩ T = .err e ∧
    macos_cpu_stats ⟨.ok (flattenRecords recs), .error e, mpd⟩ T = .err e ∧
    macos_cpu_stats ⟨.ok (flattenRecords recs), .ok (), .error e⟩ T =
      .err e := by
  refine ⟨rfl, ?_, ?_⟩ <;>
    simp [macos_cpu_stats, get_host_processor_info, extractRecords_flatten]

/-- Claim C5: `clock_ticks()` is idempotent — after a successful first
initialization every call returns the identical value, the OS query runs
exactly once, and later calls never re-query, whatever the OS would then
answer (`rest` is arbitrary, including failures). -/
theorem claim_C5 (r : Int) (e : Nat) (rest : List (Int × Nat))
    (hr : r ≠ -1) :
    run_clock_ticks ((r, e) :: rest) ClockState.uninit =
      (List.replicate (rest.length + 1)
        (Outcome.ok (r % 18446744073709551616).toNat),
       ClockState.cached (r % 18446744073709551616).toNat, 1) :=
  run_clock_ticks_ok r e rest hr

/-- Witness for C5: two calls, the second with a failing OS query that is
never consulted. -/
theorem claim_C5_witness :
    run_clock_ticks [((100 : Int), (0 : Nat)), (-1, 7)] ClockState.uninit =
      (List.replicate 2 (Outcome.ok ((100 : Int) % 18446744073709551616).toNat),
       ClockState.cached ((100 : Int) % 18446744073709551616).toNat, 1) :=
  claim_C5 100 0 [(-1, 7)] (by decide)

/-- Claim C6: on a real OS target — `sysconf(_SC_CLK_TCK)` answers with a
positive `c_long` — every `clock_ticks()` call that returns yields a value
strictly greater than zero. -/
theorem claim_C6 (r : Int) (e : Nat) (rest : List (Int × Nat))
    (x : Outcome Nat)
    (hr0 : 0 < r) (hr63 : r < 9223372036854775808)
    (hx : x ∈ (run_clock_ticks ((r, e) :: rest) ClockState.uninit).1) :
    ∃ w, x = Outcome.ok w ∧ 0 < w := by
  have hr : r ≠ -1 := by omega
  rw [run_clock_ticks_ok r e rest hr] at hx
  refine ⟨(r % 18446744073709551616).toNat, List.eq_of_mem_replicate hx, ?_⟩
  omega

/-- Witness for C6 at `r = 100` with a single call. -/
theorem claim_C6_witness : ∃ w, Outcome.ok (100 : Nat) = Outcome.ok w ∧ 0 < w :=
  claim_C6 100 0 [] (Outcome.ok 100) (by decide) (by decide) (by decide)

/-- Claim C7: in the file-based reader, a first line whose 2nd field — or
whose 4th field, when the earlier fields parse — is not an unsigned integer
makes the read panic rather than return an error value. -/
theorem claim_C7 (line l f1 : String) (rest : List String) (T : Nat)
    (hsplit : splitAsciiWhitespace line = l :: f1 :: rest)
    (hbad : parseU64 f1 = none ∨
      ∃ f2 f3 rest2, rest = f2 :: f3 :: rest2 ∧ parseU64 f3 = none) :
    read_proc_stat_cpu (.ok line) T = .panicked := by
  rcases hbad with h1 | ⟨f2, f3, rest2, hrest, h3⟩
  · simp [read_proc_stat_cpu, hsplit, cpuLoop, parse_to_duration, h1]
  · subst hrest
    cases hpd : parse_to_duration T f1 with
    | none => simp [read_proc_stat_cpu, hsplit, cpuLoop, hpd]
    | some d =>
      have h3' : parse_to_duration T f3 = none := by
        simp [parse_to_duration, h3]
      simp [read_proc_stat_cpu, hsplit, cpuLoop, hpd, h3']

/-- Witness for C7: the line `cpu 1000 200 xyz 300`, whose 4th field does
not parse. -/
theorem claim_C7_witness :
    read_proc_stat_cpu (.ok "cpu 1000 200 xyz 300") 100 = .panicked :=
  claim_C7 "cpu 1000 200 xyz 300" "cpu" "1000" ["200", "xyz", "300"] 100
    (by decide) (Or.inr ⟨"200", "xyz", ["300"], rfl, by decide⟩)

/-- Claim C8: in the file-based reader, a failure to open or read the
statistics file is returned to the caller as that I/O error — no panic and
no default-zero result. -/
theorem claim_C8 (e T : Nat) : read_proc_stat_cpu (.error e) T = .err e := rfl

/-- Counterexample to claim C9 as stated: the line `cpu x` has fewer than
four whitespace-separated fields, yet the read panics on the unparsable 2nd
field instead of returning `Ok`. -/
theorem claim_C9_counterexample :
    read_proc_stat_cpu (.ok "cpu x") 100 = .panicked := by decide

/-- Claim C9 (amended): for a first line with fewer than four
whitespace-separated fields — including an empty line — *whose present tick
fields parse as unsigned integers*, and a nonzero tick divisor, the
file-based `cpu_stats()` returns `Ok`, leaving each column-less field at
`CpuStats::default()`'s zero duration. -/
theorem claim_C9 (line l f1 f2 : String) (a T : Nat)
    (ha : parseU64 f1 = some a) (hT0 : 0 < T) (hT32 : T < 4294967296) :
    (splitAsciiWhitespace line = [] →
      read_proc_stat_cpu (.ok line) T = .ok CpuStats.default) ∧
    (splitAsciiWhitespace line = [l] →
      read_proc_stat_cpu (.ok line) T = .ok CpuStats.default) ∧
    (splitAsciiWhitespace line = [l, f1] →
      read_proc_stat_cpu (.ok line) T =
        .ok ⟨spec_ticks_to_duration a T, ⟨0, 0⟩⟩) ∧
    (splitAsciiWhitespace line = [l, f1, f2] →
      read_proc_stat_cpu (.ok line) T =
        .ok ⟨spec_ticks_to_duration a T, ⟨0, 0⟩⟩) := by
  have hmod : T % 4294967296 = T := Nat.mod_eq_of_lt hT32
  refine ⟨fun h => ?_, fun h => ?_, fun h => ?_, fun h => ?_⟩ <;>
    simp [read_proc_stat_cpu, h, cpuLoop, parse_to_duration, ha, hmod,
      checked_div_from_secs _ _ hT0, CpuStats.default]

/-- Witness for the amended C9 at the line `cpu 100` with `T = 100`: the
absent 4th column leaves `system` at the zero duration. -/
theorem claim_C9_witness :
    read_proc_stat_cpu (.ok "cpu 100") 100 =
      .ok ⟨spec_ticks_to_duration 100 100, ⟨0, 0⟩⟩ :=
  (claim_C9 "cpu 100" "cpu" "100" "" 100 100
    (by decide) (by decide) (by decide)).2.2.1 (by decide)

/-- Claim C10: the tick-to-duration conversion divides by `clock_ticks()`
with no zero guard: with `clock_ticks() = 0` the division panics in both
platform readers instead of returning an error, so `cpu_stats()` is total
only under the precondition `clock_ticks() > 0`. -/
theorem claim_C10 (R a : Nat) (line l f1 : String) (rest : List String)
    (recs : List (Nat × Nat × Nat × Nat))
    (hsplit : splitAsciiWhitespace line = l :: f1 :: rest)
    (ha : parseU64 f1 = some a) :
    (Duration.from_secs R).checked_div (0 % 4294967296) = none ∧
    read_proc_stat_cpu (.ok line) 0 = .panicked ∧
    macos_cpu_stats ⟨.ok (flattenRecords recs), .ok (), .ok ()⟩ 0 =
      .panicked := by
  refine ⟨by simp [Duration.checked_div], ?_, ?_⟩
  · simp [read_proc_stat_cpu, hsplit, cpuLoop, parse_to_duration, ha,
      Duration.checked_div]
  · simp [macos_cpu_stats, get_host_processor_info, extractRecords_flatten,
      Duration.checked_div]

/-- Witness for C10 at `R = 7`, the line `cpu 100`, and one core record. -/
theorem claim_C10_witness :
    (Duration.from_secs 7).checked_div (0 % 4294967296) = none ∧
    read_proc_stat_cpu (.ok "cpu 100") 0 = .panicked ∧
    macos_cpu_stats ⟨.ok (flattenRecords [(1, 2, 3, 4)]), .ok (), .ok ()⟩ 0 =
      .panicked :=
  claim_C10 7 100 "cpu 100" "cpu" "100" [] [(1, 2, 3, 4)]
    (by decide) (by decide)

end CpuStatsModel
